import Mathlib

/-!
Verification of the `fp_validation` library: an error-accumulating
`Validation` type backed by a non-empty vector of errors, with combinators
`map`, `map_err`, `map_errs`, `ap`, `merge`, collection from a sequence
(`FromIterator`), and conversion from a fail-fast `Result`.
The example validators (`Email`, `FullName`, `PhoneNumber`, `Person`) from
the test module are embedded as well.
-/

/-- Modelled from the spec: the type `NonEmptyVec<E>` lives in the crate
module `non_empty_vec`, whose source file is not part of the sources here.
Per the spec (§3): attributes `head : E` (first element, always present)
and `tail`, an ordered sequence of zero or more additional elements. -/
structure NonEmptyVec (E : Type) where
  head : E
  tail : List E
deriving DecidableEq, Repr

/-- The elements of a non-empty vector, in order: head first, then the tail. -/
def NonEmptyVec.toList (v : NonEmptyVec E) : List E :=
  v.head :: v.tail

/-- Modelled from the spec: construction from a single element
(head = element, tail = empty); also the implicit `From<E>` wrap used by
`errors.into()` in the source. -/
def NonEmptyVec.of (e : E) : NonEmptyVec E :=
  ⟨e, []⟩

/-- Modelled from the spec: `append` concatenates, self's elements first,
then other's (result head = left's head, result tail = left's tail followed
by right's head followed by right's tail). -/
def NonEmptyVec.append (v w : NonEmptyVec E) : NonEmptyVec E :=
  ⟨v.head, v.tail ++ w.head :: w.tail⟩

/-- Modelled from the spec: `map` applies f to every element in order,
preserving length and order. -/
def NonEmptyVec.map (f : E → F) (v : NonEmptyVec E) : NonEmptyVec F :=
  ⟨f v.head, v.tail.map f⟩

/-- `Validation<T, E>` from src/src/validation.rs lines 5-9: success
carrying a `T`, or failure carrying a `NonEmptyVec<E>`. -/
inductive Validation (T E : Type) where
  | Ok : T → Validation T E
  | Errs : NonEmptyVec E → Validation T E
deriving DecidableEq, Repr

/-- `Validation::map` (validation.rs lines 12-20). -/
def Validation.map (f : T → U) : Validation T E → Validation U E
  | .Ok value => .Ok (f value)
  | .Errs errors => .Errs errors

/-- `Validation::map_err` (validation.rs lines 22-30). -/
def Validation.map_err (f : E → G) : Validation T E → Validation T G
  | .Ok value => .Ok value
  | .Errs errors => .Errs (errors.map f)

/-- `Validation::map_errs` (validation.rs lines 32-40): on failure, applies
`f` once to the whole error vector and wraps the result via `.into()`. -/
def Validation.map_errs (f : NonEmptyVec E → G) : Validation T E → Validation T G
  | .Ok value => .Ok value
  | .Errs errors => .Errs (NonEmptyVec.of (f errors))

/-- `Validation::ap` (validation.rs lines 42-55). -/
def Validation.ap : Validation T E → Validation (T → U) E → Validation U E
  | .Ok value, .Ok f => .Ok (f value)
  | .Ok _, .Errs errors => .Errs errors
  | .Errs errors, .Ok _ => .Errs errors
  | .Errs errors_1, .Errs errors_2 => .Errs (errors_1.append errors_2)

/-- `Validation::merge` (validation.rs lines 57-62). The Rust bound
`T: FromIterator<T>` is passed explicitly as the function `collectT`
standing for `vec![a, b].into_iter().collect::<T>()` applied to the
two-element vector. -/
def Validation.merge (collectT : List T → T) (self other : Validation T E) :
    Validation T E :=
  self.ap (other.map (fun other_ => fun self_ => collectT [self_, other_]))

/-- `impl Default for Validation<T, E>` (validation.rs lines 65-72):
`Validation::Ok(T::default())`. -/
instance instInhabitedValidation [Inhabited T] : Inhabited (Validation T E) :=
  ⟨Validation.Ok default⟩

/-- One step of the `Adapter` iterator inside the `FromIterator`
implementation (validation.rs lines 84-110): an `Ok` element contributes its
value to the collection; an `Errs` element appends its errors to the
accumulated errors (or installs them if none were accumulated yet). -/
def Validation.from_iter_step (acc : List A × Option (NonEmptyVec E)) :
    Validation A E → List A × Option (NonEmptyVec E)
  | .Ok value => (acc.1 ++ [value], acc.2)
  | .Errs errors =>
    match acc.2 with
    | some self_errors => (acc.1, some (self_errors.append errors))
    | none => (acc.1, some errors)

/-- `impl FromIterator<Validation<A, E>> for Validation<B, E>`
(validation.rs lines 74-123), for a finite input sequence. The Rust bound
`B: FromIterator<A>` is passed explicitly as `from_b`, standing for
`B::from_iter` applied to the sequence of collected success values. -/
def Validation.from_iter (from_b : List A → B) (l : List (Validation A E)) :
    Validation B E :=
  let acc := l.foldl Validation.from_iter_step ([], none)
  match acc.2 with
  | some errors => .Errs errors
  | none => .Ok (from_b acc.1)

/-- `impl From<Result<T, E>> for Validation<T, E>` (validation.rs
lines 125-132); `Result<T, E>` is rendered as `Except E T`. -/
def Validation.fromResult : Except E T → Validation T E
  | .ok value => .Ok value
  | .error e => .Errs (NonEmptyVec.of e)

/-- The success values of a list of validations, in order (successes keep
their relative order; failures contribute nothing). Used to state the
`FromIterator` contract. -/
def Validation.okValues : List (Validation A E) → List A
  | [] => []
  | .Ok a :: rest => a :: Validation.okValues rest
  | .Errs _ :: rest => Validation.okValues rest

/-- All errors of a list of validations, in input order: each failing
element contributes its whole error sequence, in that element's own order.
Used to state the `FromIterator` contract. -/
def Validation.errList : List (Validation A E) → List E
  | [] => []
  | .Ok _ :: rest => Validation.errList rest
  | .Errs e :: rest => e.toList ++ Validation.errList rest

/-- Folding a list of errors into an optional accumulated non-empty vector:
describes the error state of the `Adapter` after consuming input whose
errors, flattened, are the given list. -/
def Validation.mergeErrs : Option (NonEmptyVec E) → List E → Option (NonEmptyVec E)
  | none, [] => none
  | none, e :: es => some ⟨e, es⟩
  | some ne, es => some ⟨ne.head, ne.tail ++ es⟩

lemma Validation.from_iter_foldl (l : List (Validation A E)) :
    ∀ (vs : List A) (er : Option (NonEmptyVec E)),
      l.foldl Validation.from_iter_step (vs, er) =
        (vs ++ Validation.okValues l, Validation.mergeErrs er (Validation.errList l)) := by
  induction l with
  | nil =>
    intro vs er
    cases er <;> simp [Validation.okValues, Validation.errList, Validation.mergeErrs]
  | cons v rest ih =>
    intro vs er
    cases v with
    | Ok a =>
      simp only [List.foldl_cons, Validation.from_iter_step, Validation.okValues,
        Validation.errList, ih]
      simp
    | Errs e =>
      cases er with
      | none =>
        simp only [List.foldl_cons, Validation.from_iter_step, Validation.okValues,
          Validation.errList, ih, Validation.mergeErrs, NonEmptyVec.toList]
        rfl
      | some s =>
        simp only [List.foldl_cons, Validation.from_iter_step, Validation.okValues,
          Validation.errList, ih, Validation.mergeErrs, NonEmptyVec.append,
          NonEmptyVec.toList]
        cases Validation.errList rest <;> simp

/-- Closed form of `from_iter`: the result is `Ok` of the collected success
values when no element fails, and otherwise `Errs` of all errors of all
failing elements, flattened in input order. -/
lemma Validation.from_iter_eq (from_b : List A → B) (l : List (Validation A E)) :
    Validation.from_iter from_b l =
      (match Validation.errList l with
       | [] => Validation.Ok (from_b (Validation.okValues l))
       | e :: es => Validation.Errs ⟨e, es⟩) := by
  unfold Validation.from_iter
  rw [Validation.from_iter_foldl]
  cases Validation.errList l <;> simp [Validation.mergeErrs]

/-- `Email` (validation.rs line 139). -/
structure Email where
  s : String
deriving DecidableEq, Repr

/-- `Email::validate` (validation.rs lines 141-149): valid iff the string
contains exactly one at-sign. -/
def Email.validate (s : String) : Validation Email String :=
  if (s.data.filter (fun c => c == '@')).length = 1 then
    Validation.Ok (Email.mk s)
  else
    Validation.Errs (NonEmptyVec.of s)

/-- `FullName` (validation.rs line 152). -/
structure FullName where
  s : String
deriving DecidableEq, Repr

/-- Models Rust `char::is_alphabetic` (Unicode Alphabetic property) for the
characters this repository's examples use: on ASCII letters and on the
symbols and emoji in the tests it coincides with `Char.isAlpha`. -/
def char_is_alphabetic (c : Char) : Bool :=
  c.isAlpha

/-- `FullName::validate` (validation.rs lines 154-162): valid iff every
character is alphabetic or a space. -/
def FullName.validate (s : String) : Validation FullName Unit :=
  if s.data.all (fun c => char_is_alphabetic c || c == ' ') then
    Validation.Ok (FullName.mk s)
  else
    Validation.Errs (NonEmptyVec.of ())

/-- `PhoneNumber` (validation.rs line 165). -/
structure PhoneNumber where
  s : String
deriving DecidableEq, Repr

/-- `PhoneNumberValidationError` (validation.rs lines 167-171). -/
inductive PhoneNumberValidationError where
  | InvalidFormat
  | LengthOutOfRange
deriving DecidableEq, Repr

/-- The collapsing collection `vec![a, b].into_iter().collect::<()>()` used
by `merge` at type `()` in `PhoneNumber::validate` (`FromIterator<()>`
for `()`). -/
def unit_collect (_ : List Unit) : Unit :=
  ()

/-- `PhoneNumber::validate` (validation.rs lines 173-194): a length check
(`s.len()` is the UTF-8 byte length, required in 10..=16) merged with a
format check (first char `'+'`, all remaining chars ASCII digits; an empty
string fails the format check since `chars.next()` is `None`). -/
def PhoneNumber.validate (s : String) : Validation PhoneNumber PhoneNumberValidationError :=
  let len := s.utf8ByteSize
  let length_validation : Validation Unit PhoneNumberValidationError :=
    if len > 16 || len < 10 then
      Validation.Errs (NonEmptyVec.of PhoneNumberValidationError.LengthOutOfRange)
    else
      Validation.Ok ()
  let format_validation : Validation Unit PhoneNumberValidationError :=
    match s.data with
    | c :: rest =>
      if c = '+' && rest.all Char.isDigit then
        Validation.Ok ()
      else
        Validation.Errs (NonEmptyVec.of PhoneNumberValidationError.InvalidFormat)
    | [] => Validation.Errs (NonEmptyVec.of PhoneNumberValidationError.InvalidFormat)
  (length_validation.merge unit_collect format_validation).map (fun _ => PhoneNumber.mk s)

/-- `PersonRaw` (validation.rs lines 196-201). -/
structure PersonRaw where
  email : String
  name : String
  phone : String
deriving DecidableEq, Repr

/-- `Person` (validation.rs lines 203-208). -/
structure Person where
  email : Email
  name : FullName
  phone : PhoneNumber
deriving DecidableEq, Repr

/-- `PersonValidationError` (validation.rs lines 210-215). -/
inductive PersonValidationError where
  | InvalidEmail : String → PersonValidationError
  | InvalidFullName
  | InvalidPhoneNumber : NonEmptyVec PhoneNumberValidationError → PersonValidationError
deriving DecidableEq, Repr

/-- `Person::validate` (validation.rs lines 217-229): the curried `ap`
chain over the three field validations, each field's errors collapsed into
one `PersonValidationError` by `map_errs`. -/
def Person.validate (raw : PersonRaw) : Validation Person PersonValidationError :=
  ((Email.validate raw.email).map_errs
      (fun errors => PersonValidationError.InvalidEmail errors.head)).ap
    (((FullName.validate raw.name).map_errs
        (fun _ => PersonValidationError.InvalidFullName)).ap
      (((PhoneNumber.validate raw.phone).map_errs
          PersonValidationError.InvalidPhoneNumber).map
        (fun phone => fun name => fun email => Person.mk email name phone)))

/-- Whether a validation is in the failure variant. -/
def Validation.is_errs : Validation T E → Bool
  | .Ok _ => false
  | .Errs _ => true

/-- Whether a fail-fast result is in the failure variant. -/
def resultIsFailure : Except E T → Bool
  | .ok _ => false
  | .error _ => true

/-- C1: `ap` follows the four-case semantics: (Ok t, Ok f) yields
Ok (f t); (Ok _, Errs e) yields Errs e; (Errs e, Ok _) yields Errs e; and
(Errs e1, Errs e2) yields Errs whose error sequence is exactly e1's
elements followed by e2's elements, in their original order, so self's
errors always precede other's errors. -/
theorem ap_four_case_semantics {T U E : Type} (t : T) (f : T → U)
    (e e1 e2 : NonEmptyVec E) :
    (Validation.Ok t : Validation T E).ap (Validation.Ok f) = Validation.Ok (f t)
    ∧ (Validation.Ok t).ap (Validation.Errs e) = (Validation.Errs e : Validation U E)
    ∧ (Validation.Errs e : Validation T E).ap (Validation.Ok f) = Validation.Errs e
    ∧ ∃ r, (Validation.Errs e1 : Validation T E).ap (Validation.Errs e2) =
        (Validation.Errs r : Validation U E)
      ∧ r.toList = e1.toList ++ e2.toList := by
  refine ⟨rfl, rfl, rfl, e1.append e2, rfl, ?_⟩
  simp [NonEmptyVec.append, NonEmptyVec.toList]

/-- C2: collecting a finite ordered sequence of validations: if every
element is Ok (no errors at all), the result is Ok of the collection of all
contained values in input order; otherwise the result is Errs of a single
error sequence holding every error of every failing element, first failing
element's errors first, each element's own errors in their own order, with
successful elements contributing nothing. -/
theorem from_iter_collects_values_and_errors {A B E : Type}
    (from_b : List A → B) (l : List (Validation A E)) :
    Validation.from_iter from_b l =
      (match Validation.errList l with
       | [] => Validation.Ok (from_b (Validation.okValues l))
       | e :: es => Validation.Errs ⟨e, es⟩) :=
  Validation.from_iter_eq from_b l

/-- C3: every `Errs` value of `Validation` - hence the output of any
combinator that lands in the failure variant - carries an error sequence of
length at least 1: an `Errs` holding an empty error collection is not
constructible, since `NonEmptyVec` always has a head element. -/
theorem errs_nonempty_invariant {T E : Type} (v : Validation T E)
    (ne : NonEmptyVec E) (_h : v = Validation.Errs ne) :
    1 ≤ ne.toList.length := by
  simp [NonEmptyVec.toList]

/-- C3 witness: a concrete failure value produced by a combinator (`ap` of
two failures) has at least one error. -/
theorem errs_nonempty_invariant_witness :
    1 ≤ (NonEmptyVec.of (0 : Nat)).toList.length :=
  errs_nonempty_invariant
    (Validation.Errs (NonEmptyVec.of 0) : Validation Nat Nat)
    (NonEmptyVec.of 0) rfl

/-- C4: validating a person record with email "✉", name "😂" and phone
"📞" yields a single Errs with exactly three top-level errors in order:
invalid-email carrying "✉", then invalid-name, then invalid-phone carrying
the sequence [length-out-of-range, invalid-format]; the nested curried `ap`
chain flattens errors left-to-right in field order, with the phone field's
inner accumulation folded into one outer error. -/
theorem validate_person_invalid_all :
    Person.validate ⟨"✉", "😂", "📞"⟩ =
      Validation.Errs
        ⟨PersonValidationError.InvalidEmail "✉",
         [PersonValidationError.InvalidFullName,
          PersonValidationError.InvalidPhoneNumber
            ⟨PhoneNumberValidationError.LengthOutOfRange,
             [PhoneNumberValidationError.InvalidFormat]⟩]⟩ := by
  decide

/-- C5: `merge` behaves as `ap` applied to a function pairing the two
values: both Ok gives Ok of the target collection built from the
two-element ordered sequence [self's value, other's value]; any failure
gives Errs with self's errors followed by other's errors - the same
error-accumulation outcome as the equivalent `ap` call, of which the last
conjunct is the literal statement. -/
theorem merge_ap_equivalence {T E : Type} (collectT : List T → T)
    (a b : T) (e e1 e2 : NonEmptyVec E) :
    Validation.merge collectT (Validation.Ok a : Validation T E) (Validation.Ok b) =
        Validation.Ok (collectT [a, b])
    ∧ Validation.merge collectT (Validation.Ok a) (Validation.Errs e) =
        Validation.Errs e
    ∧ Validation.merge collectT (Validation.Errs e) (Validation.Ok b) =
        Validation.Errs e
    ∧ (∃ r, Validation.merge collectT (Validation.Errs e1) (Validation.Errs e2) =
          Validation.Errs r
        ∧ r.toList = e1.toList ++ e2.toList)
    ∧ ∀ (v w : Validation T E),
        Validation.merge collectT v w =
          v.ap (w.map (fun other_ => fun self_ => collectT [self_, other_])) := by
  refine ⟨rfl, rfl, rfl, ⟨e1.append e2, rfl, ?_⟩, fun v w => rfl⟩
  simp [NonEmptyVec.append, NonEmptyVec.toList]

/-- C6: collecting the empty input sequence yields Ok of the empty
collection (the target collection built from no elements), never a
failure. -/
theorem from_iter_empty {A B E : Type} (from_b : List A → B) :
    Validation.from_iter (E := E) from_b [] = Validation.Ok (from_b []) :=
  rfl

/-- C7: `map` satisfies the functor laws: mapping the identity is the
identity, mapping a composition is the composition of the maps, and `map`
leaves a failure's error sequence completely unchanged. -/
theorem map_functor_laws {T U V E : Type} (v : Validation T E)
    (f : T → U) (g : U → V) (e : NonEmptyVec E) :
    v.map id = v
    ∧ (v.map f).map g = v.map (g ∘ f)
    ∧ (Validation.Errs e : Validation T E).map f = Validation.Errs e := by
  refine ⟨?_, ?_, rfl⟩ <;> cases v <;> rfl

/-- C8: `map_errs` on a failure applies its function exactly once to the
whole error sequence and returns Errs of the one-element sequence holding
the single replacement error; on a success it is the identity. -/
theorem map_errs_spec {T E G : Type} (e : NonEmptyVec E)
    (f : NonEmptyVec E → G) (t : T) :
    (Validation.Errs e : Validation T E).map_errs f =
        Validation.Errs (NonEmptyVec.of (f e))
    ∧ (NonEmptyVec.of (f e)).toList = [f e]
    ∧ (Validation.Ok t : Validation T E).map_errs f = Validation.Ok t :=
  ⟨rfl, rfl, rfl⟩

/-- C9: conversion from a fail-fast result is total and lossless:
success t maps to Ok t, failure e maps to Errs of the one-element sequence
[e], and the result is in the failure variant exactly when the input
was. -/
theorem fromResult_spec {T E : Type} (t : T) (e : E) :
    Validation.fromResult (Except.ok t : Except E T) = Validation.Ok t
    ∧ Validation.fromResult (Except.error e : Except E T) =
        Validation.Errs (NonEmptyVec.of e)
    ∧ (NonEmptyVec.of e).toList = [e]
    ∧ ∀ r : Except E T, (Validation.fromResult r).is_errs = resultIsFailure r := by
  refine ⟨rfl, rfl, rfl, fun r => ?_⟩
  cases r <;> rfl

/-- C10: for every success type with a default value, the default
Validation is Ok of that default, and is never the failure variant. -/
theorem default_is_ok {T E : Type} [Inhabited T] :
    (default : Validation T E) = Validation.Ok (default : T)
    ∧ (default : Validation T E).is_errs = false :=
  ⟨rfl, rfl⟩
